import Mathlib

/-!
Verification of the reconciliation daemon in `src/cli/ugreen_daemon.cpp`.

The daemon keeps, for each of `UGREEN_MAX_LEDS` lights, a *pending* (desired)
record and an *applied* (hardware-confirmed) record, plus a per-light oneshot
flag and oneshot start timestamp.  A background thread reconciles applied
toward pending (`apply_leds`), and a protocol handler (`accept_and_process`)
mutates the pending records in response to text commands.

This file shallowly embeds that state and those two routines and proves the
specification's claims about them.
-/

namespace UgreenDaemon

/-- The UGREEN_MAX_LEDS constant, defined as 10 in `ugreen_daemon.cpp`. -/
abbrev UGREEN_MAX_LEDS : Nat := 10

/-- Modelled from the spec: the mode enumeration lives in `ugreen_leds.h`,
which is not part of the given sources; the spec fixes its carrier as
`{off, on, blink, breath}`. -/
inductive op_mode_t where
  | off
  | on
  | blink
  | breath
deriving DecidableEq, Repr

/-- Modelled from the spec: the integer code of a mode, as printed by the
`status` reply (`(int)led_status.op_mode`); the numeric values come from the
enumeration order in the missing `ugreen_leds.h`, listed by the spec as
off, on, blink, breath. -/
def op_mode_code : op_mode_t → Int
  | .off => 0
  | .on => 1
  | .blink => 2
  | .breath => 3

/-- Modelled from the spec: `ugreen_leds_t::led_data_t` is declared in the
missing `ugreen_leds.h`; the spec describes its fields as an availability
flag, a mode, and integer brightness, color channels and timings. -/
structure led_data_t where
  is_available : Bool
  op_mode : op_mode_t
  brightness : Int
  color_r : Int
  color_g : Int
  color_b : Int
  t_on : Int
  t_off : Int
deriving DecidableEq, Repr

/-- The daemon's shared mutable state: `leds_pending`, `leds_applied`,
`oneshot_enabled`, `oneshot_start_time` arrays and the probe count
(`ugreen_daemon` members, lines 18-22 of the source). -/
structure daemon_state where
  probed_leds : Nat
  leds_pending : Fin UGREEN_MAX_LEDS → led_data_t
  leds_applied : Fin UGREEN_MAX_LEDS → led_data_t
  oneshot_enabled : Fin UGREEN_MAX_LEDS → Bool
  oneshot_start_time : Fin UGREEN_MAX_LEDS → Int

/-- One call into the hardware collaborator (`ugreen_leds_t`): the five
setters used by the reconciliation engine. -/
inductive hw_call where
  | set_onoff (led_id : Nat) (status : Bool)
  | set_blink (led_id : Nat) (t_on t_off : Int)
  | set_breath (led_id : Nat) (t_on t_off : Int)
  | set_brightness (led_id : Nat) (brightness : Int)
  | set_rgb (led_id : Nat) (r g b : Int)
deriving DecidableEq, Repr

/-- The oneshot-adjusted effective mode, lines 65-77 of
`ugreen_daemon::apply_leds(led_type_t, led_data_t&, led_data_t&)`:
when the oneshot flag is set, the elapsed time since `oneshot_start_time`
selects on / off / on around the `t_on`/`t_off` windows; otherwise the
pending mode is used as-is. -/
def effective_mode (oneshot_en : Bool) (now start_time : Int)
    (led_pending : led_data_t) : op_mode_t :=
  if oneshot_en then
    let time_diff := now - start_time
    let oneshot_cycle := led_pending.t_on + led_pending.t_off
    if time_diff < led_pending.t_on then .on
    else if time_diff < oneshot_cycle then .off
    else .on
  else led_pending.op_mode

/-- Mode reconciliation, lines 79-105 of `apply_leds`: when the effective
mode differs from the applied mode, dispatch one hardware call on the
*pending* mode; on success copy the field group that call set.  The returned
`Bool` is true when the `off` case's early `return` fired (skipping the
brightness and color phases). -/
def apply_mode (hw : hw_call → Bool) (led_id : Nat) (om : op_mode_t)
    (led_applied led_pending : led_data_t) :
    led_data_t × List hw_call × Bool :=
  if om ≠ led_applied.op_mode then
    match led_pending.op_mode with
    | .off =>
        (if hw (.set_onoff led_id false) then
          {led_applied with op_mode := led_pending.op_mode}
         else led_applied,
         [.set_onoff led_id false], true)
    | .on =>
        (if hw (.set_onoff led_id true) then
          {led_applied with op_mode := led_pending.op_mode}
         else led_applied,
         [.set_onoff led_id true], false)
    | .blink =>
        (if hw (.set_blink led_id led_pending.t_on led_pending.t_off) then
          {led_applied with op_mode := led_pending.op_mode,
                            t_on := led_pending.t_on,
                            t_off := led_pending.t_off}
         else led_applied,
         [.set_blink led_id led_pending.t_on led_pending.t_off], false)
    | .breath =>
        (if hw (.set_breath led_id led_pending.t_on led_pending.t_off) then
          {led_applied with op_mode := led_pending.op_mode,
                            t_on := led_pending.t_on,
                            t_off := led_pending.t_off}
         else led_applied,
         [.set_breath led_id led_pending.t_on led_pending.t_off], false)
  else (led_applied, [], false)

/-- Brightness reconciliation, lines 107-110 of `apply_leds`. -/
def apply_brightness (hw : hw_call → Bool) (led_id : Nat)
    (led_applied led_pending : led_data_t) : led_data_t × List hw_call :=
  if led_pending.brightness ≠ led_applied.brightness then
    (if hw (.set_brightness led_id led_pending.brightness) then
      {led_applied with brightness := led_pending.brightness}
     else led_applied,
     [.set_brightness led_id led_pending.brightness])
  else (led_applied, [])

/-- Color reconciliation, lines 112-120 of `apply_leds`. -/
def apply_rgb (hw : hw_call → Bool) (led_id : Nat)
    (led_applied led_pending : led_data_t) : led_data_t × List hw_call :=
  if led_pending.color_r ≠ led_applied.color_r ∨
     led_pending.color_g ≠ led_applied.color_g ∨
     led_pending.color_b ≠ led_applied.color_b then
    (if hw (.set_rgb led_id led_pending.color_r led_pending.color_g
              led_pending.color_b) then
      {led_applied with color_r := led_pending.color_r,
                        color_g := led_pending.color_g,
                        color_b := led_pending.color_b}
     else led_applied,
     [.set_rgb led_id led_pending.color_r led_pending.color_g
        led_pending.color_b])
  else (led_applied, [])

/-- One light's reconciliation pass,
`ugreen_daemon::apply_leds(led_type_t, led_data_t&, led_data_t&)`
(lines 60-121): compute the effective mode, reconcile the mode (possibly
returning early when the pending mode is off), then brightness, then color.
`hw` decides whether each hardware call reports success (returns 0).
Returns the new applied record and the list of hardware calls issued. -/
def apply_leds_one (hw : hw_call → Bool) (led_id : Nat) (oneshot_en : Bool)
    (now start_time : Int) (led_applied led_pending : led_data_t) :
    led_data_t × List hw_call :=
  let om := effective_mode oneshot_en now start_time led_pending
  let m := apply_mode hw led_id om led_applied led_pending
  if m.2.2 then (m.1, m.2.1)
  else
    let b := apply_brightness hw led_id m.1 led_pending
    let c := apply_rgb hw led_id b.1 led_pending
    (c.1, m.2.1 ++ b.2 ++ c.2)

/-- Timing clamp, lines 270-271 and 278-279 of the source:
the value of the expression min 0x7fff (max 50 t). -/
def clamp_t (t : Int) : Int := min 32767 (max 50 t)

/-- One parsed command line body (the word after the light id, with its
arguments).  The `invalid` constructor stands for any command word other
than the nine recognized ones; the `blink` sub-type is kept as a raw string
because the handler validates it itself. -/
inductive client_cmd where
  | brightness_set (level : Int)
  | color_set (r g b : Int)
  | cmd_on
  | cmd_off
  | blink (blink_type : String) (t_on t_off : Int)
  | oneshot_set (t_on t_off : Int)
  | shot
  | status
  | cmd_exit
  | invalid (word : String)

/-- Outcome of processing one command line inside
`ugreen_daemon::accept_and_process`: continue the session (optionally with a
reply sent back, for `status`), terminate the session with an error
(`return -1`), or end it cleanly (`break` on `exit`).  Each outcome carries
the resulting shared state. -/
inductive step_result where
  | ok (st : daemon_state) (reply : Option String)
  | err (st : daemon_state)
  | session_end (st : daemon_state)

/-- The shared state carried by a `step_result`. -/
def step_result.state : step_result → daemon_state
  | .ok st _ => st
  | .err st => st
  | .session_end st => st

/-- The `status` reply line, lines 299-309: availability flag, mode code,
brightness, r, g, b, t_on, t_off, space-separated, newline-terminated,
all read from the *pending* record. -/
def status_reply (st : daemon_state) (i : Fin UGREEN_MAX_LEDS) : String :=
  let led_status := st.leds_pending i
  toString (if (i : Nat) < st.probed_leds then (1 : Int) else 0) ++ " " ++
  toString (op_mode_code led_status.op_mode) ++ " " ++
  toString led_status.brightness ++ " " ++
  toString led_status.color_r ++ " " ++
  toString led_status.color_g ++ " " ++
  toString led_status.color_b ++ " " ++
  toString led_status.t_on ++ " " ++
  toString led_status.t_off ++ "\n"

/-- Modelled from the spec: "a single newline-terminated line of 8
space-separated integers" — the reply format stated independently of the
source, for comparison with `status_reply`. -/
def space_separated_line : List Int → String
  | [] => "\n"
  | [x] => toString x ++ "\n"
  | x :: xs => toString x ++ " " ++ space_separated_line xs

/-- Processing of one command line, lines 213-316 of
`ugreen_daemon::accept_and_process`: validate the light id, then dispatch on
the command word and mutate the pending/oneshot state accordingly.  `now`
stands for `std::time(nullptr)`. -/
def process_command (st : daemon_state) (now : Int) (led_id : Int)
    (c : client_cmd) : step_result :=
  if h : led_id < 0 ∨ (UGREEN_MAX_LEDS : Int) ≤ led_id then .err st
  else
    let i : Fin UGREEN_MAX_LEDS := ⟨led_id.toNat, by omega⟩
    match c with
    | .brightness_set brightness =>
        if brightness = 0 then
          .ok
            {st with
              leds_pending :=
                Function.update st.leds_pending i
                  {st.leds_pending i with op_mode := .off}}
            none
        else
          let p := st.leds_pending i
          let p := if p.op_mode = .off then {p with op_mode := .on} else p
          .ok
            {st with
              leds_pending :=
                Function.update st.leds_pending i
                  {p with brightness := brightness}}
            none
    | .color_set r g b =>
        if r ≠ 0 ∨ g ≠ 0 ∨ b ≠ 0 then
          .ok
            {st with
              leds_pending :=
                Function.update st.leds_pending i
                  {st.leds_pending i with
                    color_r := r, color_g := g, color_b := b}}
            none
        else .ok st none
    | .cmd_on =>
        .ok
          {st with
            leds_pending :=
              Function.update st.leds_pending i
                {st.leds_pending i with op_mode := .on}}
          none
    | .cmd_off =>
        .ok
          {st with
            leds_pending :=
              Function.update st.leds_pending i
                {st.leds_pending i with op_mode := .off}}
          none
    | .blink blink_type t_on t_off =>
        if blink_type = "blink" then
          .ok
            {st with
              leds_pending :=
                Function.update st.leds_pending i
                  {st.leds_pending i with
                    op_mode := .blink,
                    t_on := clamp_t t_on, t_off := clamp_t t_off}}
            none
        else if blink_type = "breath" then
          .ok
            {st with
              leds_pending :=
                Function.update st.leds_pending i
                  {st.leds_pending i with
                    op_mode := .breath,
                    t_on := clamp_t t_on, t_off := clamp_t t_off}}
            none
        else .err st
    | .oneshot_set t_on t_off =>
        .ok
          {st with
            leds_pending :=
              Function.update st.leds_pending i
                {st.leds_pending i with
                  t_on := clamp_t t_on, t_off := clamp_t t_off},
            oneshot_enabled := Function.update st.oneshot_enabled i true}
          none
    | .shot =>
        let time_diff := now - st.oneshot_start_time i
        let oneshot_cycle :=
          (st.leds_pending i).t_on + (st.leds_pending i).t_off
        if time_diff > oneshot_cycle ∨ ¬ st.oneshot_enabled i then
          .ok
            {st with
              oneshot_start_time :=
                Function.update st.oneshot_start_time i now}
            none
        else .ok st none
    | .status => .ok st (some (status_reply st i))
    | .cmd_exit => .session_end st
    | .invalid _ => .err st


/-- Sample pending record used by witnesses. -/
def p0 : led_data_t :=
  {is_available := true, op_mode := .blink, brightness := 128,
   color_r := 10, color_g := 20, color_b := 30, t_on := 200, t_off := 300}

/-- Sample daemon state used by witnesses. -/
def sample_state : daemon_state :=
  {probed_leds := 4, leds_pending := fun _ => p0,
   leds_applied := fun _ => p0, oneshot_enabled := fun _ => false,
   oneshot_start_time := fun _ => 0}

/-- C1: for a probed light, the effective desired mode equals the pending
mode when oneshot is disabled; when oneshot is enabled it is on for
elapsed < t_on, off for t_on <= elapsed < t_on + t_off, and on again for
elapsed >= t_on + t_off. -/
theorem effective_mode_spec (en : Bool) (now start_time : Int)
    (p : led_data_t) :
    (en = false → effective_mode en now start_time p = p.op_mode) ∧
    (en = true →
      (now - start_time < p.t_on →
        effective_mode en now start_time p = .on) ∧
      (p.t_on ≤ now - start_time ∧
          now - start_time < p.t_on + p.t_off →
        effective_mode en now start_time p = .off) ∧
      (p.t_on + p.t_off ≤ now - start_time →
        effective_mode en now start_time p = .on)) := by
  constructor
  · intro h; simp [effective_mode, h]
  · intro h
    refine ⟨?_, ?_, ?_⟩ <;> intro hg <;>
      simp only [effective_mode, h, if_true] <;>
      split_ifs <;> first | rfl | omega

theorem effective_mode_spec_witness :
    effective_mode true 100 0 p0 = op_mode_t.on :=
  ((effective_mode_spec true 100 0 p0).2 rfl).1 (by decide)

/-- C2: `shot` resets the light's oneshot start time to now exactly when
oneshot is not enabled or the elapsed time exceeds t_on + t_off; otherwise
the state is unchanged. -/
theorem shot_rearm_iff (st : daemon_state) (now : Int)
    (i : Fin UGREEN_MAX_LEDS) :
    ((st.oneshot_enabled i = false ∨
        now - st.oneshot_start_time i >
          (st.leds_pending i).t_on + (st.leds_pending i).t_off) →
      process_command st now (i : Nat) .shot =
        .ok
          {st with
            oneshot_start_time :=
              Function.update st.oneshot_start_time i now}
          none) ∧
    ((st.oneshot_enabled i = true ∧
        now - st.oneshot_start_time i ≤
          (st.leds_pending i).t_on + (st.leds_pending i).t_off) →
      process_command st now (i : Nat) .shot = .ok st none) := by
  have hne : ¬(((i : Nat) : Int) < 0 ∨
      (UGREEN_MAX_LEDS : Int) ≤ ((i : Nat) : Int)) := by
    have := i.isLt; omega
  constructor
  · intro hcase
    simp only [process_command, dif_neg hne, Int.toNat_natCast, Fin.eta]
    rw [if_pos]
    rcases hcase with h | h
    · right; simp [h]
    · left; exact h
  · intro hcase
    simp only [process_command, dif_neg hne, Int.toNat_natCast, Fin.eta]
    rw [if_neg]
    push_neg
    exact ⟨by omega, by simp [hcase.1]⟩

theorem shot_rearm_iff_witness :
    process_command sample_state 5 (0 : Fin UGREEN_MAX_LEDS) .shot =
      .ok
        {sample_state with
          oneshot_start_time :=
            Function.update sample_state.oneshot_start_time 0 5}
        none :=
  (shot_rearm_iff sample_state 5 0).1 (Or.inl rfl)

/-- C3: each reconciliation phase issues at most one hardware call; a failed
call leaves the applied record unchanged, and a successful call copies from
pending to applied exactly the field group it set: the mode alone for on/off,
the mode with t_on and t_off together for blink/breath, the brightness alone,
and all three color channels together. -/
theorem applied_update_atomic (hw : hw_call → Bool) (led_id : Nat)
    (a p : led_data_t) :
    (∀ om : op_mode_t,
      ((apply_mode hw led_id om a p).2.1 = [] ∧
        (apply_mode hw led_id om a p).1 = a) ∨
      (∃ c, (apply_mode hw led_id om a p).2.1 = [c] ∧
        (hw c = false → (apply_mode hw led_id om a p).1 = a) ∧
        (hw c = true →
          ((p.op_mode = .off ∨ p.op_mode = .on) ∧
            (apply_mode hw led_id om a p).1 =
              {a with op_mode := p.op_mode}) ∨
          ((p.op_mode = .blink ∨ p.op_mode = .breath) ∧
            (apply_mode hw led_id om a p).1 =
              {a with op_mode := p.op_mode, t_on := p.t_on,
                      t_off := p.t_off})))) ∧
    (((apply_brightness hw led_id a p).2 = [] ∧
        (apply_brightness hw led_id a p).1 = a) ∨
      ((apply_brightness hw led_id a p).2 =
          [hw_call.set_brightness led_id p.brightness] ∧
        (hw (hw_call.set_brightness led_id p.brightness) = false →
          (apply_brightness hw led_id a p).1 = a) ∧
        (hw (hw_call.set_brightness led_id p.brightness) = true →
          (apply_brightness hw led_id a p).1 =
            {a with brightness := p.brightness}))) ∧
    (((apply_rgb hw led_id a p).2 = [] ∧ (apply_rgb hw led_id a p).1 = a) ∨
      ((apply_rgb hw led_id a p).2 =
          [hw_call.set_rgb led_id p.color_r p.color_g p.color_b] ∧
        (hw (hw_call.set_rgb led_id p.color_r p.color_g p.color_b) = false →
          (apply_rgb hw led_id a p).1 = a) ∧
        (hw (hw_call.set_rgb led_id p.color_r p.color_g p.color_b) = true →
          (apply_rgb hw led_id a p).1 =
            {a with color_r := p.color_r, color_g := p.color_g,
                    color_b := p.color_b}))) := by
  refine ⟨?_, ?_, ?_⟩
  · intro om
    by_cases h : om = a.op_mode
    · left; simp [apply_mode, h]
    · right
      cases hp : p.op_mode
      · refine ⟨.set_onoff led_id false, by simp [apply_mode, h, hp],
          fun hc => by simp [apply_mode, h, hp, hc],
          fun hc => Or.inl ⟨Or.inl rfl, by simp [apply_mode, h, hp, hc]⟩⟩
      · refine ⟨.set_onoff led_id true, by simp [apply_mode, h, hp],
          fun hc => by simp [apply_mode, h, hp, hc],
          fun hc => Or.inl ⟨Or.inr rfl, by simp [apply_mode, h, hp, hc]⟩⟩
      · refine ⟨.set_blink led_id p.t_on p.t_off,
          by simp [apply_mode, h, hp],
          fun hc => by simp [apply_mode, h, hp, hc],
          fun hc => Or.inr ⟨Or.inl rfl, by simp [apply_mode, h, hp, hc]⟩⟩
      · refine ⟨.set_breath led_id p.t_on p.t_off,
          by simp [apply_mode, h, hp],
          fun hc => by simp [apply_mode, h, hp, hc],
          fun hc => Or.inr ⟨Or.inr rfl, by simp [apply_mode, h, hp, hc]⟩⟩
  · by_cases h : p.brightness = a.brightness
    · left; simp [apply_brightness, h]
    · right
      refine ⟨by simp [apply_brightness, h], fun hc => ?_, fun hc => ?_⟩ <;>
        simp [apply_brightness, h, hc]
  · by_cases h : p.color_r = a.color_r ∧ p.color_g = a.color_g ∧
        p.color_b = a.color_b
    · left; simp [apply_rgb, h.1, h.2.1, h.2.2]
    · right
      have h2 : p.color_r ≠ a.color_r ∨ p.color_g ≠ a.color_g ∨
          p.color_b ≠ a.color_b := by tauto
      refine ⟨by simp [apply_rgb, h2], fun hc => ?_, fun hc => ?_⟩ <;>
        simp [apply_rgb, h2, hc]

theorem applied_update_atomic_witness :
    (apply_brightness (fun _ => true) 0 p0
        {p0 with brightness := 77}).1 = {p0 with brightness := 77} := by
  rcases (applied_update_atomic (fun _ => true) 0 p0
      {p0 with brightness := 77}).2.1 with ⟨h1, h2⟩ | ⟨h1, h2, h3⟩
  · exact absurd h1 (by decide)
  · exact h3 rfl

/-- C4: `blink` (blink/breath) and `oneshot_set` store `clamp_t` of their
timing arguments into the pending record, `clamp_t` maps into `[50, 32767]`
(with `clamp_t 10 = 50`), and consequently every command either leaves a
light's pending `t_on`/`t_off` unchanged or leaves them within
`[50, 32767]`. -/
theorem timing_clamped (st : daemon_state) (now led_id : Int)
    (c : client_cmd) (i : Fin UGREEN_MAX_LEDS) (t1 t2 : Int) :
    (50 ≤ clamp_t t1 ∧ clamp_t t1 ≤ 32767) ∧
    clamp_t 10 = 50 ∧
    (process_command st now (i : Nat) (.blink "blink" t1 t2) =
      .ok
        {st with
          leds_pending :=
            Function.update st.leds_pending i
              {st.leds_pending i with
                op_mode := .blink,
                t_on := clamp_t t1, t_off := clamp_t t2}}
        none) ∧
    (process_command st now (i : Nat) (.blink "breath" t1 t2) =
      .ok
        {st with
          leds_pending :=
            Function.update st.leds_pending i
              {st.leds_pending i with
                op_mode := .breath,
                t_on := clamp_t t1, t_off := clamp_t t2}}
        none) ∧
    (process_command st now (i : Nat) (.oneshot_set t1 t2) =
      .ok
        {st with
          leds_pending :=
            Function.update st.leds_pending i
              {st.leds_pending i with
                t_on := clamp_t t1, t_off := clamp_t t2},
          oneshot_enabled := Function.update st.oneshot_enabled i true}
        none) ∧
    (∀ j : Fin UGREEN_MAX_LEDS,
      (((process_command st now led_id c).state.leds_pending j).t_on =
          (st.leds_pending j).t_on ∨
        (50 ≤ ((process_command st now led_id c).state.leds_pending j).t_on ∧
          ((process_command st now led_id c).state.leds_pending j).t_on ≤
            32767)) ∧
      (((process_command st now led_id c).state.leds_pending j).t_off =
          (st.leds_pending j).t_off ∨
        (50 ≤
            ((process_command st now led_id c).state.leds_pending j).t_off ∧
          ((process_command st now led_id c).state.leds_pending j).t_off ≤
            32767))) := by
  have hne : ¬(((i : Nat) : Int) < 0 ∨
      (UGREEN_MAX_LEDS : Int) ≤ ((i : Nat) : Int)) := by
    have := i.isLt; omega
  refine ⟨by unfold clamp_t; omega, by decide, ?_, ?_, ?_, ?_⟩
  · simp only [process_command, dif_neg hne, Int.toNat_natCast, Fin.eta]
    simp
  · simp only [process_command, dif_neg hne, Int.toNat_natCast, Fin.eta]
    simp
  · simp only [process_command, dif_neg hne, Int.toNat_natCast, Fin.eta]
  · intro j
    by_cases hr : led_id < 0 ∨ (UGREEN_MAX_LEDS : Int) ≤ led_id
    · simp only [process_command, dif_pos hr, step_result.state]
      simp
    · cases c
      · simp only [process_command, dif_neg hr, step_result.state,
          Function.update_apply]
        constructor <;> split_ifs <;>
          simp_all only [step_result.state, Function.update_apply] <;>
          first | (split_ifs <;> simp_all) | simp_all
      · simp only [process_command, dif_neg hr, step_result.state,
          Function.update_apply]
        constructor <;> split_ifs <;>
          simp_all only [step_result.state, Function.update_apply] <;>
          first | (split_ifs <;> simp_all) | simp_all
      · simp only [process_command, dif_neg hr, step_result.state,
          Function.update_apply]
        constructor <;> split_ifs <;>
          simp_all only [step_result.state, Function.update_apply] <;>
          first | (split_ifs <;> simp_all) | simp_all
      · simp only [process_command, dif_neg hr, step_result.state,
          Function.update_apply]
        constructor <;> split_ifs <;>
          simp_all only [step_result.state, Function.update_apply] <;>
          first | (split_ifs <;> simp_all) | simp_all
      · simp only [process_command, dif_neg hr, step_result.state,
          Function.update_apply]
        constructor <;> split_ifs <;>
          simp_all only [step_result.state, Function.update_apply] <;>
          first
            | (split_ifs <;> simp_all [clamp_t] <;> omega)
            | (simp_all [clamp_t] <;> omega)
            | omega
      · simp only [process_command, dif_neg hr, step_result.state,
          Function.update_apply]
        constructor <;> split_ifs <;>
          simp_all only [step_result.state, Function.update_apply] <;>
          first
            | (split_ifs <;> simp_all [clamp_t] <;> omega)
            | (simp_all [clamp_t] <;> omega)
            | omega
      · simp only [process_command, dif_neg hr, step_result.state,
          Function.update_apply]
        constructor <;> split_ifs <;>
          simp_all only [step_result.state, Function.update_apply] <;>
          first | (split_ifs <;> simp_all) | simp_all
      · simp only [process_command, dif_neg hr, step_result.state]
        simp
      · simp only [process_command, dif_neg hr, step_result.state]
        simp
      · simp only [process_command, dif_neg hr, step_result.state]
        simp

/-- C5: `brightness_set level` sets the pending mode to off when
`level = 0`; when `level > 0` it stores `level` as the pending brightness
and turns the pending mode from off to on exactly when it was off,
preserving any non-off mode. -/
theorem brightness_set_spec (st : daemon_state) (now : Int)
    (i : Fin UGREEN_MAX_LEDS) (level : Int) :
    (level = 0 →
      process_command st now (i : Nat) (.brightness_set level) =
        .ok
          {st with
            leds_pending :=
              Function.update st.leds_pending i
                {st.leds_pending i with op_mode := .off}}
          none) ∧
    (0 < level → (st.leds_pending i).op_mode = .off →
      process_command st now (i : Nat) (.brightness_set level) =
        .ok
          {st with
            leds_pending :=
              Function.update st.leds_pending i
                {st.leds_pending i with op_mode := .on,
                                        brightness := level}}
          none) ∧
    (0 < level → (st.leds_pending i).op_mode ≠ .off →
      process_command st now (i : Nat) (.brightness_set level) =
        .ok
          {st with
            leds_pending :=
              Function.update st.leds_pending i
                {st.leds_pending i with brightness := level}}
          none) := by
  have hne : ¬(((i : Nat) : Int) < 0 ∨
      (UGREEN_MAX_LEDS : Int) ≤ ((i : Nat) : Int)) := by
    have := i.isLt; omega
  refine ⟨?_, ?_, ?_⟩
  · intro h0; subst h0
    simp [process_command, dif_neg hne]
  · intro hl hm
    have hz : level ≠ 0 := by omega
    simp [process_command, dif_neg hne, hz, hm]
  · intro hl hm
    have hz : level ≠ 0 := by omega
    simp [process_command, dif_neg hne, hz, hm]

theorem brightness_set_spec_witness :
    process_command sample_state 0 ((0 : Fin UGREEN_MAX_LEDS) : Nat)
        (.brightness_set 7) =
      .ok
        {sample_state with
          leds_pending :=
            Function.update sample_state.leds_pending 0
              {sample_state.leds_pending 0 with brightness := 7}}
        none :=
  (brightness_set_spec sample_state 0 0 7).2.2 (by decide) (by decide)

/-- C6: `status` replies with exactly the stored pending values
(availability flag, mode code, brightness, r, g, b, t_on, t_off) as one
newline-terminated space-separated line of 8 integers, independent of the
applied records. -/
theorem status_reports_pending (st : daemon_state) (now : Int)
    (i : Fin UGREEN_MAX_LEDS)
    (applied2 : Fin UGREEN_MAX_LEDS → led_data_t) :
    process_command st now (i : Nat) .status =
      .ok st (some (status_reply st i)) ∧
    status_reply st i =
      space_separated_line
        [if (i : Nat) < st.probed_leds then 1 else 0,
         op_mode_code (st.leds_pending i).op_mode,
         (st.leds_pending i).brightness,
         (st.leds_pending i).color_r,
         (st.leds_pending i).color_g,
         (st.leds_pending i).color_b,
         (st.leds_pending i).t_on,
         (st.leds_pending i).t_off] ∧
    status_reply {st with leds_applied := applied2} i = status_reply st i := by
  have hne : ¬(((i : Nat) : Int) < 0 ∨
      (UGREEN_MAX_LEDS : Int) ≤ ((i : Nat) : Int)) := by
    have := i.isLt; omega
  refine ⟨?_, ?_, rfl⟩
  · simp only [process_command, dif_neg hne, Int.toNat_natCast, Fin.eta]
  · simp [status_reply, space_separated_line, String.append_assoc]

/-- C7: in a reconciliation pass for a light whose pending mode is off and
whose effective mode differs from the applied mode, the engine issues only
the turn-off call: on success the applied mode becomes off, on failure the
applied record is unchanged, and no brightness or color call is issued, the
applied brightness and color channels staying as they were. -/
theorem off_short_circuit (hw : hw_call → Bool) (led_id : Nat)
    (oneshot_en : Bool) (now start_time : Int) (a p : led_data_t)
    (hoff : p.op_mode = .off)
    (hdiff : effective_mode oneshot_en now start_time p ≠ a.op_mode) :
    (apply_leds_one hw led_id oneshot_en now start_time a p).2 =
      [hw_call.set_onoff led_id false] ∧
    (hw (hw_call.set_onoff led_id false) = true →
      (apply_leds_one hw led_id oneshot_en now start_time a p).1 =
        {a with op_mode := op_mode_t.off}) ∧
    (hw (hw_call.set_onoff led_id false) = false →
      (apply_leds_one hw led_id oneshot_en now start_time a p).1 = a) ∧
    (apply_leds_one hw led_id oneshot_en now start_time a p).1.brightness =
      a.brightness ∧
    (apply_leds_one hw led_id oneshot_en now start_time a p).1.color_r =
      a.color_r ∧
    (apply_leds_one hw led_id oneshot_en now start_time a p).1.color_g =
      a.color_g ∧
    (apply_leds_one hw led_id oneshot_en now start_time a p).1.color_b =
      a.color_b := by
  by_cases hc : hw (hw_call.set_onoff led_id false) <;>
    simp [apply_leds_one, apply_mode, hdiff, hoff, hc]

theorem off_short_circuit_witness :
    (apply_leds_one (fun _ => true) 0 false 0 0 p0
        {p0 with op_mode := op_mode_t.off}).2 =
      [hw_call.set_onoff 0 false] :=
  (off_short_circuit (fun _ => true) 0 false 0 0 p0
    {p0 with op_mode := op_mode_t.off} rfl (by decide)).1

/-- C8: `color_set 0 0 0` leaves the whole shared state (in particular the
pending color channels) unchanged, while any not-all-zero triple is stored
into all three pending color channels. -/
theorem color_set_spec (st : daemon_state) (now : Int)
    (i : Fin UGREEN_MAX_LEDS) (r g b : Int) :
    process_command st now (i : Nat) (.color_set 0 0 0) = .ok st none ∧
    (¬(r = 0 ∧ g = 0 ∧ b = 0) →
      process_command st now (i : Nat) (.color_set r g b) =
        .ok
          {st with
            leds_pending :=
              Function.update st.leds_pending i
                {st.leds_pending i with color_r := r, color_g := g,
                                        color_b := b}}
          none) := by
  have hne : ¬(((i : Nat) : Int) < 0 ∨
      (UGREEN_MAX_LEDS : Int) ≤ ((i : Nat) : Int)) := by
    have := i.isLt; omega
  constructor
  · simp [process_command, dif_neg hne]
  · intro h
    have h2 : r ≠ 0 ∨ g ≠ 0 ∨ b ≠ 0 := by tauto
    simp [process_command, dif_neg hne, h2]

theorem color_set_spec_witness :
    process_command sample_state 0 ((1 : Fin UGREEN_MAX_LEDS) : Nat)
        (.color_set 1 2 3) =
      .ok
        {sample_state with
          leds_pending :=
            Function.update sample_state.leds_pending 1
              {sample_state.leds_pending 1 with color_r := 1, color_g := 2,
                                                color_b := 3}}
        none :=
  (color_set_spec sample_state 0 1 1 2 3).2 (by decide)

/-- C9: a light id outside [0, 10), an unrecognized command word, or a
`blink` sub-type other than blink/breath each terminate the session with an
error carrying the shared state exactly as it was, mutating nothing. -/
theorem invalid_session_error (st : daemon_state) (now led_id : Int)
    (c : client_cmd) (w bt : String) (t1 t2 : Int) :
    ((led_id < 0 ∨ (UGREEN_MAX_LEDS : Int) ≤ led_id) →
      process_command st now led_id c = .err st) ∧
    process_command st now led_id (.invalid w) = .err st ∧
    (bt ≠ "blink" → bt ≠ "breath" →
      process_command st now led_id (.blink bt t1 t2) = .err st) := by
  refine ⟨?_, ?_, ?_⟩
  · intro h
    simp only [process_command]
    rw [dif_pos h]
  · by_cases h : led_id < 0 ∨ (UGREEN_MAX_LEDS : Int) ≤ led_id
    · simp only [process_command]
      rw [dif_pos h]
    · simp [process_command, dif_neg h]
  · intro h1 h2
    by_cases h : led_id < 0 ∨ (UGREEN_MAX_LEDS : Int) ≤ led_id
    · simp only [process_command]
      rw [dif_pos h]
    · simp [process_command, dif_neg h, h1, h2]

theorem invalid_session_error_witness :
    process_command sample_state 0 99 .cmd_on = .err sample_state :=
  (invalid_session_error sample_state 0 99 .cmd_on "foo" "x" 0 0).1
    (by decide)

/-- C10: `brightness_set 0` writes only the pending mode (to off): the
pending brightness, color channels, t_on, t_off and the light's oneshot
flag and start time are all left unchanged. -/
theorem brightness_set_zero_frame (st : daemon_state) (now : Int)
    (i : Fin UGREEN_MAX_LEDS) :
    process_command st now (i : Nat) (.brightness_set 0) =
      .ok
        {st with
          leds_pending :=
            Function.update st.leds_pending i
              {st.leds_pending i with op_mode := .off}}
        none ∧
    ((process_command st now (i : Nat)
        (.brightness_set 0)).state.leds_pending i).brightness =
      (st.leds_pending i).brightness ∧
    ((process_command st now (i : Nat)
        (.brightness_set 0)).state.leds_pending i).color_r =
      (st.leds_pending i).color_r ∧
    ((process_command st now (i : Nat)
        (.brightness_set 0)).state.leds_pending i).color_g =
      (st.leds_pending i).color_g ∧
    ((process_command st now (i : Nat)
        (.brightness_set 0)).state.leds_pending i).color_b =
      (st.leds_pending i).color_b ∧
    ((process_command st now (i : Nat)
        (.brightness_set 0)).state.leds_pending i).t_on =
      (st.leds_pending i).t_on ∧
    ((process_command st now (i : Nat)
        (.brightness_set 0)).state.leds_pending i).t_off =
      (st.leds_pending i).t_off ∧
    (process_command st now (i : Nat)
        (.brightness_set 0)).state.oneshot_enabled =
      st.oneshot_enabled ∧
    (process_command st now (i : Nat)
        (.brightness_set 0)).state.oneshot_start_time =
      st.oneshot_start_time := by
  have hne : ¬(((i : Nat) : Int) < 0 ∨
      (UGREEN_MAX_LEDS : Int) ≤ ((i : Nat) : Int)) := by
    have := i.isLt; omega
  have hmain : process_command st now (i : Nat) (.brightness_set 0) =
      .ok
        {st with
          leds_pending :=
            Function.update st.leds_pending i
              {st.leds_pending i with op_mode := .off}}
        none := by
    simp [process_command, dif_neg hne]
  refine ⟨hmain, ?_⟩
  rw [hmain]
  simp [step_result.state, Function.update_same]

end UgreenDaemon
